import Mathlib

/-
Verification development for the DeepGalaxy training orchestrator
(deep_galaxy_training.py).  The script is sequential glue code around an
external deep-learning framework; we embed the orchestration logic of the
class DeepGalaxyTraining as pure Lean functions over an explicit state,
with the observable side effects (log writes, console prints, data-loader
calls, model-file saves) recorded as an event trace.  External collaborators
(the DataIO module, the horovod communication library, the framework
training loop) are parameters of the embedding: the environment carries the
horovod availability flag, the worker rank and size, and whether the
training call is interrupted; the DataIO collaborator is passed as a record
of loader functions.
-/

set_option maxHeartbeats 1000000

namespace DeepGalaxy

/-- Python exceptions relevant to the orchestrator: KeyboardInterrupt is
caught by fit, ImportError is caught inside the distributed branch of the
initialization method, ValueError is raised by load_data on incomplete
parameters.  Other exceptions propagate uncaught. -/
inductive PyExc where
  | keyboardInterrupt
  | importError
  | valueError (msg : String)
  | otherExc (msg : String)
deriving DecidableEq, Repr

/-- A loaded numpy-style array, abstracted to its shape (first dimension is
the number of samples) and an abstract list of sample identifiers (one per
row, used only to track how the train/test split permutes and partitions
the data). -/
structure Dataset where
  shape : List Nat
  rows : List Nat
deriving DecidableEq, Repr

/-- Structured log-file messages (logger.info / logger.debug calls in the
source).  The numeric payloads that matter to the claims are carried;
payloads coming from unmodelled collaborators (hostname, psutil memory
numbers, datetime) are dropped, keeping only the message identity. -/
inductive LogMsg where
  | parallelEnabled
  | batchSizes (batch globalBatch workers : Nat)
  | hvdRanks (rank localRank : Nat)
  | parallelDisabled
  | batchSizeSingle (batch : Nat)
  | loadingFull
  | loadingPart
  | shapeX (shape : List Nat)
  | shapeY (shape : List Nat)
  | numClasses (n : Nat)
  | memoryUsage
  | timeNow
deriving DecidableEq, Repr

/-- Structured console (print) messages of the source. -/
inductive ConsoleMsg where
  | horovodImportError
  | hvdRanks (rank localRank : Nat)
  | ctrlC
  | memoryUsage
  | elapsed
  | savingModel
  | flops
deriving DecidableEq, Repr

/-- Observable side effects of the orchestrator, in program order.
createFileLogger is the attachment of the FileHandler for train_log.txt;
logWrite is a write to that log file; fileSave is model.save to the named
file; callLoadAll / callLoadPart are the calls into the DataIO
collaborator; modelFitCall / modelFitMultiGpu are the framework training
calls. -/
inductive Event where
  | createFileLogger
  | logWrite (msg : LogMsg)
  | consolePrint (msg : ConsoleMsg)
  | callLoadAll (fn pat cam : String)
  | callLoadPart (fn pat cam : String) (size rank : Nat)
  | modelFitCall
  | modelFitMultiGpu
  | fileSave (name : String)
deriving DecidableEq, Repr

/-- The external environment: whether the horovod import succeeds, the
worker count and ranks it reports, and whether the framework training call
raises an exception (some keyboardInterrupt models the user pressing
Ctrl+C during model.fit; none models normal completion). -/
structure Env where
  hvdAvailable : Bool
  hvdSize : Nat
  hvdRank : Nat
  hvdLocalRank : Nat
  trainException : Option PyExc
deriving DecidableEq, Repr

/-- The DataIO collaborator (external module data_io_new), abstracted to
its two loading entry points.  load_part embeds DataIO.load_partial, whose
extra arguments are the worker size and rank. -/
structure DataIOModel where
  load_all : String → String → String → Dataset × Dataset × Nat
  load_part : String → String → String → Nat → Nat → Dataset × Dataset × Nat

/-- The mutable state of a DeepGalaxyTraining object, restricted to the
fields the orchestration logic reads or writes.  Defaults are the values
set in the constructor.  Unmodelled fields: the GPU memory options, the
callback list, the timestamps, the model handle and the logger object
itself (loggerCreated records whether a file-backed logger was attached).
The fields data_fn, dset_name_pattern, camera_pos embed the underscored
cache attributes of the source. -/
structure DeepGalaxyTraining where
  num_classes : Nat := 0
  epochs : Nat := 50
  batch_size : Nat := 4
  noise_stddev : ℚ := mkRat 3 10
  learning_rate : ℚ := 1
  base_model_name : String := "EfficientNetB4"
  distributed_training : Bool := false
  multi_gpu_training : Bool := false
  data_fn : Option String := none
  dset_name_pattern : Option String := none
  camera_pos : Option String := none
  input_shape : List Nat := [512, 512, 3]
  loggerCreated : Bool := false
  x_train : Option Dataset := none
  y_train : Option Dataset := none
  x_test : Option Dataset := none
  y_test : Option Dataset := none
deriving DecidableEq, Repr

/-- The condition `self.noise_stddev > 0 is True` appearing twice in
save_model is a Python chained comparison: it parses as
`(self.noise_stddev > 0) and (0 is True)`, and since the literal 0 is not
the object True, the second conjunct is always False.  This constant
records that second conjunct. -/
def pyZeroIsTrue : Bool := false

/-- The filename passed to model.save in save_model, line by line from the
source: distributed mode appends the worker count reported by hvd.size();
the noise variant of the name is selected by the chained comparison
embedded in pyZeroIsTrue.  input_shape[0] is the leading dimension of the
configured input shape. -/
def saveModelFilename (env : Env) (s : DeepGalaxyTraining) : String :=
  let res := s.input_shape.headD 0
  if s.distributed_training then
    if decide ((0 : ℚ) < s.noise_stddev) && pyZeroIsTrue then
      ("model_") ++ toString res ++ ("_") ++ s.base_model_name ++ ("_noise_np_")
        ++ toString env.hvdSize ++ (".h5")
    else
      ("model_") ++ toString res ++ ("_") ++ s.base_model_name ++ ("_np_")
        ++ toString env.hvdSize ++ (".h5")
  else
    if decide ((0 : ℚ) < s.noise_stddev) && pyZeroIsTrue then
      ("model_") ++ toString res ++ ("_") ++ s.base_model_name ++ ("_noise") ++ (".h5")
    else
      ("model_") ++ toString res ++ ("_") ++ s.base_model_name ++ (".h5")

/-- save_model: in distributed mode only rank 0 calls model.save; otherwise
the save is unconditional.  The result is the trace of file writes. -/
def save_model (env : Env) (s : DeepGalaxyTraining) : List Event :=
  if s.distributed_training then
    if env.hvdRank == 0 then [Event.fileSave (saveModelFilename env s)] else []
  else
    [Event.fileSave (saveModelFilename env s)]

/-- The initialization method of DeepGalaxyTraining (`initialize` in the
source).  In the distributed branch, the horovod import either succeeds
(rank 0 creates the file-backed logger and writes the startup entries;
every process prints its ranks; callback registration and GPU configuration
have no effect on the modelled fields) or raises ImportError, which the
handler catches: it prints a message, force-disables distributed mode, and
creates the logger with the two single-process entries.  The non-distributed
branch creates the logger with the same two entries.  The third component
is the exception propagating out, always none since the only modelled
exception of this method is the caught ImportError. -/
def dgtInit (env : Env) (s : DeepGalaxyTraining) :
    DeepGalaxyTraining × List Event × Option PyExc :=
  if s.distributed_training then
    if env.hvdAvailable then
      let startupLogs : List Event :=
        if env.hvdRank == 0 then
          [Event.createFileLogger,
           Event.logWrite LogMsg.parallelEnabled,
           Event.logWrite
             (LogMsg.batchSizes s.batch_size (s.batch_size * env.hvdSize) env.hvdSize)]
        else []
      let rankLogs : List Event :=
        if env.hvdRank == 0 then
          [Event.logWrite (LogMsg.hvdRanks env.hvdRank env.hvdLocalRank)]
        else []
      ({ s with loggerCreated := env.hvdRank == 0 },
       startupLogs
         ++ [Event.consolePrint (ConsoleMsg.hvdRanks env.hvdRank env.hvdLocalRank)]
         ++ rankLogs,
       none)
    else
      ({ s with distributed_training := false, loggerCreated := true },
       [Event.consolePrint ConsoleMsg.horovodImportError,
        Event.createFileLogger,
        Event.logWrite LogMsg.parallelDisabled,
        Event.logWrite (LogMsg.batchSizeSingle s.batch_size)],
       none)
  else
    ({ s with loggerCreated := true },
     [Event.createFileLogger,
      Event.logWrite LogMsg.parallelDisabled,
      Event.logWrite (LogMsg.batchSizeSingle s.batch_size)],
     none)

/-- The data-loading call load_data performs: full load in non-distributed
mode, shard load with the horovod size and rank in distributed mode. -/
def dioLoad (env : Env) (dio : DataIOModel) (s : DeepGalaxyTraining)
    (fn pat cam : String) : Dataset × Dataset × Nat :=
  if s.distributed_training then dio.load_part fn pat cam env.hvdSize env.hvdRank
  else dio.load_all fn pat cam

/-- Modelled from the library: sklearn.model_selection.train_test_split
called with a fixed random_state is a deterministic pure function of the
arrays, the test fraction and the seed.  The concrete permutation used by
sklearn is not reproduced; the model permutes the rows by a rotation
derived from the seed and splits off the ceiling of the test fraction, in
the sklearn return order (train features, test features, train labels,
test labels).  What the claims rely on is only that the result is a
function of (X, Y, test_size, random_state) and that both arrays are split
by the same permutation. -/
def train_test_split (X Y : Dataset) (test_size : ℚ) (random_state : Nat) :
    Dataset × Dataset × Dataset × Dataset :=
  let n := X.rows.length
  let nTest := (Int.ceil (test_size * (n : ℚ))).toNat
  let k := random_state % (n + 1)
  let px := X.rows.rotate k
  let py := Y.rows.rotate k
  (⟨(px.drop nTest).length :: X.shape.drop 1, px.drop nTest⟩,
   ⟨(px.take nTest).length :: X.shape.drop 1, px.take nTest⟩,
   ⟨(py.drop nTest).length :: Y.shape.drop 1, py.drop nTest⟩,
   ⟨(py.take nTest).length :: Y.shape.drop 1, py.take nTest⟩)

/-- load_data, line by line from the source.  Parameter resolution: if all
three of data_fn, dset_name_pattern, camera_pos are passed, they are cached
on the object; otherwise, if all three cached values are present they are
used; otherwise a ValueError is raised before any load.  Then the dataset
is loaded (full or shard according to the distributed flag, with the log
writes of the source, the shard-mode ones guarded by rank 0), input_shape
is overwritten with the shape of the loaded features minus its first
dimension, and a train/test split with the constant seed 42 is performed
when the test fraction is positive; with a non-positive test fraction the
whole data becomes the training split and the test fields are untouched.
The unused `random` parameter of the source is omitted. -/
def load_data (env : Env) (dio : DataIOModel) (s : DeepGalaxyTraining)
    (data_fn dset_name_pattern camera_pos : Option String)
    (test_size : ℚ) : Except PyExc (DeepGalaxyTraining × List Event) :=
  let resolved : Option (DeepGalaxyTraining × String × String × String) :=
    match data_fn, dset_name_pattern, camera_pos with
    | some fn, some pat, some cam =>
        some ({ s with data_fn := some fn, dset_name_pattern := some pat,
                       camera_pos := some cam }, fn, pat, cam)
    | _, _, _ =>
        match s.data_fn, s.dset_name_pattern, s.camera_pos with
        | some fn, some pat, some cam => some (s, fn, pat, cam)
        | _, _, _ => none
  match resolved with
  | none =>
      Except.error (PyExc.valueError
        ("The data_fn, dset_name_pattern, camera_pos arguments should be specified."))
  | some (s1, fn, pat, cam) =>
      let loaded := dioLoad env dio s1 fn pat cam
      let X := loaded.1
      let Y := loaded.2.1
      let ncls := loaded.2.2
      let loadTrace : List Event :=
        if s1.distributed_training then
          [Event.callLoadPart fn pat cam env.hvdSize env.hvdRank]
            ++ (if env.hvdRank == 0 then
                  [Event.logWrite LogMsg.loadingPart,
                   Event.logWrite (LogMsg.shapeX X.shape),
                   Event.logWrite (LogMsg.shapeY Y.shape)]
                else [])
        else
          [Event.logWrite LogMsg.loadingFull,
           Event.callLoadAll fn pat cam,
           Event.logWrite (LogMsg.shapeX X.shape),
           Event.logWrite (LogMsg.shapeY Y.shape)]
      let s2 := { s1 with input_shape := X.shape.drop 1, num_classes := ncls }
      let s3 :=
        if 0 < test_size then
          let split := train_test_split X Y test_size 42
          { s2 with x_train := some split.1, x_test := some split.2.1,
                    y_train := some split.2.2.1, y_test := some split.2.2.2 }
        else
          { s2 with x_train := some X, y_train := some Y }
      let tailTrace : List Event :=
        if s1.distributed_training then
          if env.hvdRank == 0 then [Event.logWrite (LogMsg.numClasses ncls)] else []
        else [Event.logWrite (LogMsg.numClasses ncls)]
      Except.ok (s3, loadTrace ++ tailTrace)

/-- The exception load_data raises, if any. -/
def loadDataExc (env : Env) (dio : DataIOModel) (s : DeepGalaxyTraining)
    (data_fn dset_name_pattern camera_pos : Option String)
    (test_size : ℚ) : Option PyExc :=
  match load_data env dio s data_fn dset_name_pattern camera_pos test_size with
  | Except.ok _ => none
  | Except.error e => some e

/-- The state after load_data; on an exception the state is unchanged (the
ValueError is raised before any field assignment). -/
def loadDataState (env : Env) (dio : DataIOModel) (s : DeepGalaxyTraining)
    (data_fn dset_name_pattern camera_pos : Option String)
    (test_size : ℚ) : DeepGalaxyTraining :=
  match load_data env dio s data_fn dset_name_pattern camera_pos test_size with
  | Except.ok r => r.1
  | Except.error _ => s

/-- The event trace of load_data; on an exception no event was produced
(the ValueError is raised before any load or log write). -/
def loadDataTrace (env : Env) (dio : DataIOModel) (s : DeepGalaxyTraining)
    (data_fn dset_name_pattern camera_pos : Option String)
    (test_size : ℚ) : List Event :=
  match load_data env dio s data_fn dset_name_pattern camera_pos test_size with
  | Except.ok r => r.2
  | Except.error _ => []

/-- Layers of the Sequential model assembled by load_model, in order.
lambdaRepeatChannels is the Lambda layer replicating the single input
channel three times (grayscale to RGB); gaussianNoise is the augmentation
layer; base is the named backbone architecture. -/
inductive Layer where
  | lambdaRepeatChannels
  | gaussianNoise (stddev : ℚ)
  | base (name : String)
deriving DecidableEq, Repr

/-- The layer list assembled by load_model, from the source: both branches
of `if self.noise_stddev == 0` start with the channel-replication Lambda
layer and end with the base model; the GaussianNoise layer is inserted in
between only in the nonzero branch.  Optimizer selection, multi-GPU
wrapping and compilation do not affect the layer list and are not
modelled here. -/
def load_model_layers (s : DeepGalaxyTraining) : List Layer :=
  if s.noise_stddev = 0 then
    [Layer.lambdaRepeatChannels, Layer.base s.base_model_name]
  else
    [Layer.lambdaRepeatChannels, Layer.gaussianNoise s.noise_stddev,
     Layer.base s.base_model_name]

/-- Recognizes the GaussianNoise layer. -/
def isGaussianLayer : Layer → Bool
  | Layer.gaussianNoise _ => true
  | _ => false

/-- The training method fit.  The framework training call (model.fit on
the plain model, or on the multi-GPU replica when multi_gpu_training is
set) either returns or raises the exception carried by the environment.
Both the distributed and the non-distributed branch wrap the call in
try/except KeyboardInterrupt/finally: the handler swallows the interrupt
(the distributed one also prints a message); the finally block of the
distributed branch prints the memory usage and, on rank 0 only, writes the
memory usage and the current time to the log; the finally block of the
non-distributed branch prints the elapsed time and a saving-model message.
The closing flops print runs only when no exception is propagating.  The
second component is the exception escaping fit, none unless the training
call raised something other than KeyboardInterrupt. -/
def fit (env : Env) (s : DeepGalaxyTraining) : List Event × Option PyExc :=
  if s.distributed_training then
    let caught : List Event × Option PyExc :=
      match env.trainException with
      | some PyExc.keyboardInterrupt => ([Event.consolePrint ConsoleMsg.ctrlC], none)
      | e => ([], e)
    let finallyTrace : List Event :=
      [Event.consolePrint ConsoleMsg.memoryUsage]
        ++ (if env.hvdRank == 0 then
              [Event.logWrite LogMsg.memoryUsage, Event.logWrite LogMsg.timeNow]
            else [])
    let closing : List Event :=
      match caught.2 with
      | none => [Event.consolePrint ConsoleMsg.flops]
      | some _ => []
    ([Event.modelFitCall] ++ caught.1 ++ finallyTrace ++ closing, caught.2)
  else
    let fitEvent : Event :=
      if s.multi_gpu_training then Event.modelFitMultiGpu else Event.modelFitCall
    let caught : List Event × Option PyExc :=
      match env.trainException with
      | some PyExc.keyboardInterrupt => ([], none)
      | e => ([], e)
    let finallyTrace : List Event :=
      [Event.consolePrint ConsoleMsg.elapsed, Event.consolePrint ConsoleMsg.savingModel]
    let closing : List Event :=
      match caught.2 with
      | none => [Event.consolePrint ConsoleMsg.flops]
      | some _ => []
    ([fitEvent] ++ caught.1 ++ finallyTrace ++ closing, caught.2)

/-- The console event emitted by the finally block of the branch of fit
that the state selects: the memory-usage print in the distributed branch,
the elapsed-time print otherwise. -/
def fitCleanupEvent (s : DeepGalaxyTraining) : Event :=
  if s.distributed_training then Event.consolePrint ConsoleMsg.memoryUsage
  else Event.consolePrint ConsoleMsg.elapsed

/-- Recognizes the events that write to the file system: attaching the
file-backed logger, a log-file write, and a model-file save. -/
def isFileOutputEvent : Event → Bool
  | Event.createFileLogger => true
  | Event.logWrite _ => true
  | Event.fileSave _ => true
  | _ => false

/-- Recognizes a call into the full-dataset load path. -/
def isLoadAllEvent : Event → Bool
  | Event.callLoadAll _ _ _ => true
  | _ => false

/-- Recognizes a call into the shard (partial) load path. -/
def isLoadPartEvent : Event → Bool
  | Event.callLoadPart _ _ _ _ _ => true
  | _ => false

/-- A fresh DeepGalaxyTraining object, as built by the constructor. -/
def defaultDGT : DeepGalaxyTraining := {}

/-- A fresh object with distributed training requested. -/
def distributedDGT : DeepGalaxyTraining := { distributed_training := true }

/-- Concrete loaded arrays used by the witnesses: five 8x8 single-channel
images and their five labels. -/
def sampleX : Dataset := ⟨[5, 8, 8, 1], [10, 11, 12, 13, 14]⟩

/-- Labels accompanying sampleX. -/
def sampleY : Dataset := ⟨[5], [10, 11, 12, 13, 14]⟩

/-- A concrete DataIO collaborator used by the witnesses. -/
def sampleDio : DataIOModel :=
  { load_all := fun _ _ _ => (sampleX, sampleY, 3),
    load_part := fun _ _ _ _ _ => (sampleX, sampleY, 3) }

/-- A two-worker distributed environment seen from the rank-1 worker. -/
def envRank1 : Env :=
  { hvdAvailable := true, hvdSize := 2, hvdRank := 1, hvdLocalRank := 1,
    trainException := none }

/-- An environment in which the horovod import fails. -/
def envNoHvd : Env :=
  { hvdAvailable := false, hvdSize := 1, hvdRank := 0, hvdLocalRank := 0,
    trainException := none }

/-- A single-process environment in which the training call is interrupted
by Ctrl+C. -/
def envInterrupt : Env :=
  { hvdAvailable := true, hvdSize := 1, hvdRank := 0, hvdLocalRank := 0,
    trainException := some PyExc.keyboardInterrupt }

/-- A plain single-process run environment: horovod importable but unused,
no interrupt. -/
def envPlain : Env :=
  { hvdAvailable := true, hvdSize := 1, hvdRank := 0, hvdLocalRank := 0,
    trainException := none }

/-- C1 (code_bug): with the default configuration (resolution 512,
EfficientNetB4, noise_stddev = 0.3 > 0, non-distributed), save_model writes
the filename without the noise component, and toggling noise_stddev between
0.3 and 0 does not change the filename: the chained comparison
`noise_stddev > 0 is True` is always false, so the noise branch of
save_model is unreachable, contradicting the specified naming scheme. -/
theorem save_model_noise_branch_dead :
    saveModelFilename envPlain defaultDGT = ("model_512_EfficientNetB4.h5") ∧
    saveModelFilename envPlain { defaultDGT with noise_stddev := 0 }
      = ("model_512_EfficientNetB4.h5") ∧
    save_model envPlain defaultDGT
      = save_model envPlain { defaultDGT with noise_stddev := 0 } := by
  refine ⟨by decide, by decide, by decide⟩

/-- C2 (counterexample): in the plain single-process mode, with training
completing normally, fit emits no memory-usage report at all, neither on
the console nor to the log file — refuting the claim that every mode logs
peak memory usage at the end of training. -/
theorem fit_plain_mode_no_memory_report :
    (fit envPlain defaultDGT).1.count (Event.consolePrint ConsoleMsg.memoryUsage) = 0 ∧
    (fit envPlain defaultDGT).1.count (Event.logWrite LogMsg.memoryUsage) = 0 := by
  refine ⟨by decide, by decide⟩

/-- C2 (amended): fit reports memory usage at the end of the training
phase exactly when distributed training is active — the console print
happens once on every worker and the log-file write once on rank 0 —
including when the training call is interrupted or raises; in the
multi-GPU and plain single-process modes no memory usage is reported. -/
theorem fit_memory_report_iff_distributed (env : Env) (s : DeepGalaxyTraining) :
    (fit env s).1.count (Event.consolePrint ConsoleMsg.memoryUsage)
      = (if s.distributed_training then 1 else 0) ∧
    (fit env s).1.count (Event.logWrite LogMsg.memoryUsage)
      = (if s.distributed_training && (env.hvdRank == 0) then 1 else 0) := by
  cases hdt : s.distributed_training <;>
    cases hmg : s.multi_gpu_training <;>
      cases hr : (env.hvdRank == 0) <;>
        rcases hex : env.trainException with _ | e <;>
          try cases e
  all_goals simp [fit, hdt, hmg, hr, hex]

/-- C3: a KeyboardInterrupt raised by the framework training call does not
propagate out of fit, and the finally-block cleanup of the branch taken
(the memory-usage print in the distributed branch, the elapsed-time print
in the non-distributed one) still runs exactly once, in both branches. -/
theorem fit_interrupt_caught_cleanup_once (env : Env) (s : DeepGalaxyTraining)
    (h : env.trainException = some PyExc.keyboardInterrupt) :
    (fit env s).2 = none ∧
    (fit env s).1.count (fitCleanupEvent s) = 1 := by
  cases hdt : s.distributed_training <;>
    cases hmg : s.multi_gpu_training <;>
      cases hr : (env.hvdRank == 0) <;>
        simp [fit, fitCleanupEvent, hdt, hmg, hr, h]

/-- C3 witness: concrete single-process interrupted run. -/
theorem fit_interrupt_caught_cleanup_once_witness :
    (fit envInterrupt defaultDGT).2 = none ∧
    (fit envInterrupt defaultDGT).1.count (fitCleanupEvent defaultDGT) = 1 :=
  fit_interrupt_caught_cleanup_once envInterrupt defaultDGT rfl

/-- C7: when distributed training is requested but the horovod import
fails, the initialization method force-disables distributed mode, writes
the fallback log entry exactly once, and completes without raising (the
ImportError is caught inside the method). -/
theorem init_horovod_missing_fallback (env : Env) (s : DeepGalaxyTraining)
    (hd : s.distributed_training = true) (ha : env.hvdAvailable = false) :
    (dgtInit env s).1.distributed_training = false ∧
    (dgtInit env s).2.1.count (Event.logWrite LogMsg.parallelDisabled) = 1 ∧
    (dgtInit env s).2.2 = none := by
  simp [dgtInit, hd, ha]

/-- C7 witness: fresh distributed configuration, horovod unavailable. -/
theorem init_horovod_missing_fallback_witness :
    (dgtInit envNoHvd distributedDGT).1.distributed_training = false ∧
    (dgtInit envNoHvd distributedDGT).2.1.count
      (Event.logWrite LogMsg.parallelDisabled) = 1 ∧
    (dgtInit envNoHvd distributedDGT).2.2 = none :=
  init_horovod_missing_fallback envNoHvd distributedDGT rfl rfl

/-- C4: with distributed mode active (requested and horovod importable) on
a worker of nonzero rank, no file-system output happens: the traces of the
initialization method, of load_data, and of fit contain no logger creation,
no log write and no file save, and save_model writes nothing. -/
theorem distributed_nonroot_writes_nothing (env : Env) (dio : DataIOModel)
    (s : DeepGalaxyTraining) (fn pat cam : String) (t : ℚ)
    (hd : s.distributed_training = true) (ha : env.hvdAvailable = true)
    (hr : (env.hvdRank == 0) = false) :
    ((dgtInit env s).2.1.filter isFileOutputEvent = []) ∧
    ((loadDataTrace env dio s (some fn) (some pat) (some cam) t).filter
        isFileOutputEvent = []) ∧
    ((fit env s).1.filter isFileOutputEvent = []) ∧
    ((save_model env s).filter isFileOutputEvent = []) := by
  refine ⟨?_, ?_, ?_, ?_⟩
  · simp [dgtInit, hd, ha, hr, isFileOutputEvent]
  · simp [loadDataTrace, load_data, dioLoad, hd, hr, isFileOutputEvent]
  · rcases hex : env.trainException with _ | e <;> try cases e
    all_goals simp [fit, hd, hr, isFileOutputEvent, hex]
  · simp [save_model, hd, hr]

/-- C4 witness: the rank-1 worker of a two-worker distributed run. -/
theorem distributed_nonroot_writes_nothing_witness :
    ((dgtInit envRank1 distributedDGT).2.1.filter isFileOutputEvent = []) ∧
    ((loadDataTrace envRank1 sampleDio distributedDGT (some ("galaxies.hdf5"))
        (some ("s_*")) (some ("c_*")) (mkRat 1 5)).filter isFileOutputEvent = []) ∧
    ((fit envRank1 distributedDGT).1.filter isFileOutputEvent = []) ∧
    ((save_model envRank1 distributedDGT).filter isFileOutputEvent = []) :=
  distributed_nonroot_writes_nothing envRank1 sampleDio distributedDGT
    ("galaxies.hdf5") ("s_*") ("c_*") (mkRat 1 5) rfl rfl rfl

/-- C5: load_data called with all three parameters raises nothing, and
dispatches by mode: non-distributed calls the full-dataset load path and
never the partial one; distributed calls the partial load path with
exactly the horovod worker size and rank, and never the full one. -/
theorem load_data_dispatch (env : Env) (dio : DataIOModel)
    (s : DeepGalaxyTraining) (fn pat cam : String) (t : ℚ) :
    loadDataExc env dio s (some fn) (some pat) (some cam) t = none ∧
    (if s.distributed_training then
       Event.callLoadPart fn pat cam env.hvdSize env.hvdRank
           ∈ loadDataTrace env dio s (some fn) (some pat) (some cam) t ∧
         (loadDataTrace env dio s (some fn) (some pat) (some cam) t).filter
           isLoadAllEvent = []
     else
       Event.callLoadAll fn pat cam
           ∈ loadDataTrace env dio s (some fn) (some pat) (some cam) t ∧
         (loadDataTrace env dio s (some fn) (some pat) (some cam) t).filter
           isLoadPartEvent = []) := by
  cases hdt : s.distributed_training <;>
    cases hr : (env.hvdRank == 0) <;>
      simp [loadDataExc, loadDataTrace, load_data, dioLoad, hdt, hr,
        isLoadAllEvent, isLoadPartEvent]

/-- C6: load_data called with no arguments, on an object whose cached
parameter set is incomplete, raises the ValueError of the source and
produces no event: in particular no load, full or partial, is performed. -/
theorem load_data_missing_args_value_error (env : Env) (dio : DataIOModel)
    (s : DeepGalaxyTraining) (t : ℚ)
    (h : s.data_fn = none ∨ s.dset_name_pattern = none ∨ s.camera_pos = none) :
    load_data env dio s none none none t =
      Except.error (PyExc.valueError
        ("The data_fn, dset_name_pattern, camera_pos arguments should be specified.")) ∧
    loadDataTrace env dio s none none none t = [] := by
  rcases hfn : s.data_fn with _ | v1 <;>
    rcases hp : s.dset_name_pattern with _ | v2 <;>
      rcases hc : s.camera_pos with _ | v3 <;>
        simp_all [load_data, loadDataTrace]

/-- C6 witness: a fresh object has no cached parameters. -/
theorem load_data_missing_args_value_error_witness :
    load_data envPlain sampleDio defaultDGT none none none (mkRat 1 5) =
      Except.error (PyExc.valueError
        ("The data_fn, dset_name_pattern, camera_pos arguments should be specified.")) ∧
    loadDataTrace envPlain sampleDio defaultDGT none none none (mkRat 1 5) = [] :=
  load_data_missing_args_value_error envPlain sampleDio defaultDGT (mkRat 1 5)
    (Or.inl rfl)

/-- C8: load_data with complete parameters succeeds, and with a positive
test fraction the four split fields are exactly the result of the
deterministic train_test_split of the loaded arrays with the constant seed
42 — a pure function of the data and the fraction, so two runs over the
same data and fraction produce identical splits; with a non-positive test
fraction the whole loaded dataset becomes the training split and the test
fields are left untouched. -/
theorem load_data_split_fixed_seed (env : Env) (dio : DataIOModel)
    (s : DeepGalaxyTraining) (fn pat cam : String) (t : ℚ) :
    loadDataExc env dio s (some fn) (some pat) (some cam) t = none ∧
    (if 0 < t then
       (loadDataState env dio s (some fn) (some pat) (some cam) t).x_train
           = some (train_test_split (dioLoad env dio s fn pat cam).1
               (dioLoad env dio s fn pat cam).2.1 t 42).1 ∧
       (loadDataState env dio s (some fn) (some pat) (some cam) t).x_test
           = some (train_test_split (dioLoad env dio s fn pat cam).1
               (dioLoad env dio s fn pat cam).2.1 t 42).2.1 ∧
       (loadDataState env dio s (some fn) (some pat) (some cam) t).y_train
           = some (train_test_split (dioLoad env dio s fn pat cam).1
               (dioLoad env dio s fn pat cam).2.1 t 42).2.2.1 ∧
       (loadDataState env dio s (some fn) (some pat) (some cam) t).y_test
           = some (train_test_split (dioLoad env dio s fn pat cam).1
               (dioLoad env dio s fn pat cam).2.1 t 42).2.2.2
     else
       (loadDataState env dio s (some fn) (some pat) (some cam) t).x_train
           = some (dioLoad env dio s fn pat cam).1 ∧
       (loadDataState env dio s (some fn) (some pat) (some cam) t).y_train
           = some (dioLoad env dio s fn pat cam).2.1 ∧
       (loadDataState env dio s (some fn) (some pat) (some cam) t).x_test = s.x_test ∧
       (loadDataState env dio s (some fn) (some pat) (some cam) t).y_test = s.y_test) := by
  cases hdt : s.distributed_training <;>
    by_cases ht : 0 < t <;>
      simp [loadDataExc, loadDataState, load_data, dioLoad, hdt, ht]

/-- C9 (counterexample): the channel-replication Lambda layer is present —
in head position — both in the zero-noise configuration and in the default
configuration with noise 0.3; since the layer list branches only on
whether noise_stddev is zero, there is no configuration without it,
refuting that its presence is optional under the configuration. -/
theorem load_model_repeat_layer_unconditional :
    (load_model_layers { defaultDGT with noise_stddev := 0 }).head?
        = some Layer.lambdaRepeatChannels ∧
    (load_model_layers defaultDGT).head? = some Layer.lambdaRepeatChannels := by
  refine ⟨by decide, by decide⟩

/-- C9 (amended): load_model always prepends the grayscale-to-RGB channel
replication layer — it is the first layer in every configuration — while
the Gaussian-noise layer is present exactly when the noise standard
deviation is nonzero; the base architecture comes last. -/
theorem load_model_layer_structure (s : DeepGalaxyTraining) :
    ((load_model_layers s).any isGaussianLayer = true ↔ s.noise_stddev ≠ 0) ∧
    (load_model_layers s).head? = some Layer.lambdaRepeatChannels ∧
    (load_model_layers s).getLast? = some (Layer.base s.base_model_name) := by
  by_cases h : s.noise_stddev = 0 <;>
    simp [load_model_layers, isGaussianLayer, h]

/-- C10: a successful load_data overwrites input_shape with the shape of
the loaded feature array minus its leading (sample-count) dimension,
whatever value was configured before the call; consequently save_model
computes the same filename regardless of the pre-configured input shape —
the encoded resolution is that of the loaded data. -/
theorem load_data_overwrites_input_shape (env : Env) (dio : DataIOModel)
    (s : DeepGalaxyTraining) (fn pat cam : String) (t : ℚ) (sh1 sh2 : List Nat) :
    (loadDataState env dio { s with input_shape := sh1 }
        (some fn) (some pat) (some cam) t).input_shape
      = (dioLoad env dio s fn pat cam).1.shape.drop 1 ∧
    saveModelFilename env (loadDataState env dio { s with input_shape := sh1 }
        (some fn) (some pat) (some cam) t)
      = saveModelFilename env (loadDataState env dio { s with input_shape := sh2 }
        (some fn) (some pat) (some cam) t) := by
  have key : loadDataState env dio { s with input_shape := sh1 }
        (some fn) (some pat) (some cam) t
      = loadDataState env dio { s with input_shape := sh2 }
        (some fn) (some pat) (some cam) t := by
    cases hdt : s.distributed_training <;>
      by_cases ht : 0 < t <;>
        simp [loadDataState, load_data, dioLoad, hdt, ht]
  refine ⟨?_, by rw [key]⟩
  cases hdt : s.distributed_training <;>
    by_cases ht : 0 < t <;>
      simp [loadDataState, load_data, dioLoad, hdt, ht]

end DeepGalaxy
